import Mathlib

/-!
Verification of the Statistics Activity Materialization Job.

The repository under review contains, under `src/`, only the exercising tests
(`TestSqlActivityUpdateJob`, `TestSqlActivityUpdateTopLimitJob`,
`TestTransactionActivityMetadata`, `TestActivityStatusCombineAPI`, ...) of the
SQL activity update job, together with an unrelated object-storage interface
file. The implementation of the job itself (`sqlActivityUpdater`,
`TransferStatsToActivity`, `transferTopStats`, the activity read path) is not
part of `src/`. The development below therefore models the missing components
from the specification (`spec.md`, sections 2-7) and settles the claims
against that model. Every definition whose doc comment starts with
`Modelled from the spec:` embeds a component that is described in the spec
but whose Go source is absent from `src/`.
-/

/-- A fingerprint identifier for a normalized statement or transaction shape.
Modelled from the spec: the glossary defines it as an identifier stable
across literal-value differences; string-encoded on the wire, modelled here
as a natural number so that the tie-breaking order of MetricSelector
("fingerprintID ascending") is available. -/
abbrev FingerprintID := Nat

/-- Modelled from the spec: a `StatisticsRecord` (spec section 3) is
identified by (fingerprintID, app name, time bucket) and holds the aggregated
counters used by the six ranking metrics: execution count, mean service
latency, mean contention time, mean CPU time and p99 latency. Counter values
are modelled as naturals. The database field of the key is not relevant to
any claim and is omitted. -/
structure StatisticsRecord where
  fingerprintID : Nat
  appName : String
  bucket : Nat
  execCount : Nat
  svcLatMean : Nat
  contentionMean : Nat
  cpuMean : Nat
  p99Lat : Nat
deriving DecidableEq, Repr

/-- Modelled from the spec: a `TransactionStatisticsRecord` (spec section 3)
has the same shape as `StatisticsRecord` at transaction granularity and
additionally references the constituent statement fingerprint IDs that
executed under the transaction in the bucket. -/
structure TransactionStatisticsRecord where
  txnFingerprintID : Nat
  appName : String
  bucket : Nat
  execCount : Nat
  svcLatMean : Nat
  contentionMean : Nat
  cpuMean : Nat
  p99Lat : Nat
  stmtFingerprintIDs : List FingerprintID
deriving DecidableEq, Repr

/-- Modelled from the spec: the read-only `StatsSource` (spec section 2),
raw per-fingerprint statistics at statement and transaction granularity. -/
structure StatsSource where
  stmts : List StatisticsRecord
  txns : List TransactionStatisticsRecord
deriving DecidableEq, Repr

/-- Modelled from the spec: an `ActivityRecord` (spec section 3), the
materialized bounded projection: a copy of the ranking-relevant counters
plus Metadata = the list of contributing statement fingerprint IDs (empty
for statement-level rows). -/
structure ActivityRecord where
  fingerprintID : Nat
  appName : String
  bucket : Nat
  execCount : Nat
  svcLatMean : Nat
  contentionMean : Nat
  cpuMean : Nat
  p99Lat : Nat
  stmtFingerprintIDs : List FingerprintID
deriving DecidableEq, Repr

/-- Modelled from the spec: the `ActivityStore` (spec section 2), the bounded
denormalized tables `statement_activity` and `transaction_activity` read by
the UI/status path. -/
structure ActivityStore where
  stmtActivity : List ActivityRecord
  txnActivity : List ActivityRecord
deriving DecidableEq, Repr

/-- Modelled from the spec: the fixed metric set of section 4.1 - execution
count, mean service latency, derived total execution time, mean contention
time, mean CPU time, p99 latency. Six metrics total. -/
inductive Metric where
  | execCnt
  | svcLat
  | totalExecTime
  | contention
  | cpu
  | p99
deriving DecidableEq, Repr

/-- Modelled from the spec: the fixed metric set, in the order the spec
lists it (section 4.1). -/
def Metric.all : List Metric :=
  [.execCnt, .svcLat, .totalExecTime, .contention, .cpu, .p99]

/-- Modelled from the spec: the value a statement-level record scores under
each ranking metric; the derived total execution time is count x mean
latency, computed independently of its two inputs (spec section 4.1). -/
def metricValue : Metric → StatisticsRecord → Nat
  | .execCnt, r => r.execCount
  | .svcLat, r => r.svcLatMean
  | .totalExecTime, r => r.execCount * r.svcLatMean
  | .contention, r => r.contentionMean
  | .cpu, r => r.cpuMean
  | .p99, r => r.p99Lat

/-- Modelled from the spec: the value a transaction-level record scores under
each ranking metric, mirroring `metricValue`. -/
def txnMetricValue : Metric → TransactionStatisticsRecord → Nat
  | .execCnt, r => r.execCount
  | .svcLat, r => r.svcLatMean
  | .totalExecTime, r => r.execCount * r.svcLatMean
  | .contention, r => r.contentionMean
  | .cpu, r => r.cpuMean
  | .p99, r => r.p99Lat

/-- Insertion of an element into a list already ordered by `le`, keeping the
order; used by the ranking sort of `MetricSelector`. -/
def insertBy (le : α → α → Bool) (a : α) : List α → List α
  | [] => [a]
  | b :: bs => if le a b then a :: b :: bs else b :: insertBy le a bs

/-- Insertion sort by the boolean comparison `le`; the ranking sort used by
`MetricSelector`. -/
def sortBy (le : α → α → Bool) : List α → List α
  | [] => []
  | a :: as => insertBy le a (sortBy le as)

/-- Modelled from the spec: the ranking order of `MetricSelector`
(section 4.1) - `a` is ranked no lower than `b` when its metric value is
strictly greater, or the values tie and `a` has the smaller-or-equal
fingerprint ID (descending by metric, ties broken by fingerprintID
ascending for determinism). -/
def rankLE (m : Metric) (a b : StatisticsRecord) : Bool :=
  (metricValue m b < metricValue m a) ||
    ((metricValue m a == metricValue m b) && (a.fingerprintID ≤ b.fingerprintID))

/-- Modelled from the spec: the transaction-side ranking order, mirroring
`rankLE`. -/
def txnRankLE (m : Metric) (a b : TransactionStatisticsRecord) : Bool :=
  (txnMetricValue m b < txnMetricValue m a) ||
    ((txnMetricValue m a == txnMetricValue m b) &&
      (a.txnFingerprintID ≤ b.txnFingerprintID))

/-- Statement-level rows of the raw statistics store that belong to a time
bucket. -/
def bucketStmts (src : StatsSource) (b : Nat) : List StatisticsRecord :=
  src.stmts.filter (fun r => r.bucket == b)

/-- Transaction-level rows of the raw statistics store that belong to a time
bucket. -/
def bucketTxns (src : StatsSource) (b : Nat) : List TransactionStatisticsRecord :=
  src.txns.filter (fun r => r.bucket == b)

namespace MetricSelector

/-- Modelled from the spec: the statement rows of the bucket in ranking
order for a metric (section 4.1: ranked by the metric descending, ties
broken by fingerprintID ascending for determinism). -/
def rankedStmts (src : StatsSource) (b : Nat) (m : Metric) : List StatisticsRecord :=
  sortBy (rankLE m) (bucketStmts src b)

/-- Modelled from the spec: `MetricSelector.select(bucket, metric, K)`
(section 4.1) returns the ordered list of the top-K statement fingerprint
IDs of the bucket under the metric; if fewer than K rows exist it returns
all of them. -/
def select (src : StatsSource) (b : Nat) (m : Metric) (K : Nat) : List Nat :=
  ((rankedStmts src b m).take K).map (fun r => r.fingerprintID)

/-- Modelled from the spec: the transaction-side selector, mirroring
`select` at transaction granularity. -/
def txnSelect (src : StatsSource) (b : Nat) (m : Metric) (K : Nat) : List Nat :=
  ((sortBy (txnRankLE m) (bucketTxns src b)).take K).map
    (fun r => r.txnFingerprintID)

end MetricSelector

/-- Modelled from the spec: the error taxonomy of section 7 that a run can
surface - `transientDataError` for a failed StatsSource read and
`commitError` for a failed atomic replace. (`ConfigurationError` is not
fatal and therefore never surfaced, section 7.) -/
inductive JobError where
  | transientDataError
  | commitError
deriving DecidableEq, Repr

/-- Modelled from the spec: the injectable failure behaviour of a
StatsSource read (section 7, TransientDataError; section 8, "simulated
read failure on one metric"): the oracle says, per ranking metric, whether
the underlying read for that metric fails during the run. -/
def readTopK (fail : Metric → Bool) (src : StatsSource) (b : Nat) (m : Metric)
    (K : Nat) : Except JobError (List Nat) :=
  if fail m then .error .transientDataError else .ok (MetricSelector.select src b m K)

/-- Modelled from the spec: the transaction-side read, mirroring
`readTopK`. -/
def readTxnTopK (fail : Metric → Bool) (src : StatsSource) (b : Nat) (m : Metric)
    (K : Nat) : Except JobError (List Nat) :=
  if fail m then .error .transientDataError
  else .ok (MetricSelector.txnSelect src b m K)

/-- Deduplication of a fingerprint-ID list, used by the union step of
`TopKUnionMerger` (section 4.2: "unions the six result lists,
deduplicating by fingerprintID"). -/
def dedupFids : List Nat → List Nat
  | [] => []
  | a :: as => if a ∈ as then dedupFids as else a :: dedupFids as

namespace TopKUnionMerger

/-- Modelled from the spec: the sequential fail-fast traversal of the metric
set by `TopKUnionMerger` (section 4.2): `MetricSelector` is invoked once per
metric with the same (bucket, K) and the result lists are concatenated; if
any individual call fails the merge aborts as a whole, with no partial
union. -/
def mergeMetrics (fail : Metric → Bool) (src : StatsSource) (b K : Nat) :
    List Metric → Except JobError (List Nat)
  | [] => .ok []
  | m :: ms =>
    match readTopK fail src b m K with
    | .error e => .error e
    | .ok l =>
      match mergeMetrics fail src b K ms with
      | .error e => .error e
      | .ok rest => .ok (l ++ rest)

/-- Modelled from the spec: the transaction-side traversal, mirroring
`mergeMetrics`. -/
def mergeTxnMetrics (fail : Metric → Bool) (src : StatsSource) (b K : Nat) :
    List Metric → Except JobError (List Nat)
  | [] => .ok []
  | m :: ms =>
    match readTxnTopK fail src b m K with
    | .error e => .error e
    | .ok l =>
      match mergeTxnMetrics fail src b K ms with
      | .error e => .error e
      | .ok rest => .ok (l ++ rest)

/-- Modelled from the spec: `TopKUnionMerger` (section 4.2) over the fixed
metric set - the union of the six per-metric top-K statement lists,
deduplicated by fingerprintID, producing the single working set to
materialize. -/
def merge (fail : Metric → Bool) (src : StatsSource) (b K : Nat) :
    Except JobError (List Nat) :=
  (mergeMetrics fail src b K Metric.all).map dedupFids

/-- Modelled from the spec: the transaction-side union, mirroring `merge`. -/
def mergeTxn (fail : Metric → Bool) (src : StatsSource) (b K : Nat) :
    Except JobError (List Nat) :=
  (mergeTxnMetrics fail src b K Metric.all).map dedupFids

end TopKUnionMerger

namespace Materializer

/-- Modelled from the spec: step 1 of the Materializer (section 4.3) - fetch
the full StatisticsRecord row for each fingerprint of the working set (one
row per fingerprint, bounded by the working set). -/
def fetchStats (src : StatsSource) (b : Nat) (ws : List Nat) :
    List StatisticsRecord :=
  ws.filterMap (fun fid => (bucketStmts src b).find? (fun r => r.fingerprintID == fid))

/-- Modelled from the spec: the transaction-side fetch, mirroring
`fetchStats`. -/
def fetchTxnStats (src : StatsSource) (b : Nat) (ws : List Nat) :
    List TransactionStatisticsRecord :=
  ws.filterMap (fun fid => (bucketTxns src b).find? (fun r => r.txnFingerprintID == fid))

/-- Modelled from the spec: step 2 of the Materializer (section 4.3) - a
statement-level ActivityRecord directly copies the ranking-relevant
counters; its Metadata set is empty (Metadata is for transaction-level
rows, section 3). -/
def stmtToActivity (r : StatisticsRecord) : ActivityRecord :=
  { fingerprintID := r.fingerprintID
    appName := r.appName
    bucket := r.bucket
    execCount := r.execCount
    svcLatMean := r.svcLatMean
    contentionMean := r.contentionMean
    cpuMean := r.cpuMean
    p99Lat := r.p99Lat
    stmtFingerprintIDs := [] }

/-- Modelled from the spec: step 3 of the Materializer (section 4.3) - a
transaction-level ActivityRecord whose Metadata is the deduplicated set of
constituent statement fingerprint IDs observed for the transaction within
the statement working set. -/
def txnToActivity (stmtWs : List Nat) (r : TransactionStatisticsRecord) :
    ActivityRecord :=
  { fingerprintID := r.txnFingerprintID
    appName := r.appName
    bucket := r.bucket
    execCount := r.execCount
    svcLatMean := r.svcLatMean
    contentionMean := r.contentionMean
    cpuMean := r.cpuMean
    p99Lat := r.p99Lat
    stmtFingerprintIDs := dedupFids (r.stmtFingerprintIDs.filter (· ∈ stmtWs)) }

/-- Modelled from the spec: the statement-level rows the Materializer writes
for a bucket, one per working-set fingerprint found in the bucket. -/
def stmtRows (src : StatsSource) (b : Nat) (ws : List Nat) : List ActivityRecord :=
  (fetchStats src b ws).map stmtToActivity

/-- Modelled from the spec: the transaction-level rows the Materializer
writes for a bucket, one per transaction working-set fingerprint found in
the bucket, with Metadata drawn from the statement working set. -/
def txnRows (src : StatsSource) (b : Nat) (stmtWs txnWs : List Nat) :
    List ActivityRecord :=
  (fetchTxnStats src b txnWs).map (txnToActivity stmtWs)

end Materializer

namespace ActivityStore

/-- Modelled from the spec: `ReplaceBucket(bucket, rows)` (section 6) -
atomically replaces the bucket's existing rows in both activity tables with
the new sets, as a single all-or-nothing operation (section 4.3, step 4:
transactional delete-then-insert, never a row-by-row upsert). -/
def replaceBucket (store : ActivityStore) (b : Nat)
    (stmts txns : List ActivityRecord) : ActivityStore :=
  { stmtActivity := store.stmtActivity.filter (fun r => r.bucket != b) ++ stmts
    txnActivity := store.txnActivity.filter (fun r => r.bucket != b) ++ txns }

/-- Number of statement-activity rows stored for a bucket. -/
def stmtCountInBucket (store : ActivityStore) (b : Nat) : Nat :=
  (store.stmtActivity.filter (fun r => r.bucket == b)).length

/-- Number of transaction-activity rows stored for a bucket. -/
def txnCountInBucket (store : ActivityStore) (b : Nat) : Nat :=
  (store.txnActivity.filter (fun r => r.bucket == b)).length

/-- The empty activity store. -/
def empty : ActivityStore := { stmtActivity := [], txnActivity := [] }

end ActivityStore

/-- Modelled from the spec: the per-run configuration snapshot (sections 3
and 6) - the cluster-wide mutable TopKLimit and the enablement flag, read
once at the start of a run. -/
structure Config where
  topKLimit : Int
  enabled : Bool
deriving DecidableEq, Repr

namespace ActivityJob

/-- Modelled from the spec: the working-set computation of a run. When the
TopKLimit read at run start is ≤ 0 this is a ConfigurationError (section 7):
treated as "select nothing for every metric" - an empty working set, logged,
not fatal. Otherwise the statement and transaction working sets are produced
by `TopKUnionMerger`, fail-fast. -/
def computeWorkingSets (fail : Metric → Bool) (src : StatsSource) (b : Nat)
    (limit : Int) : Except JobError (List Nat × List Nat) :=
  if limit ≤ 0 then .ok ([], [])
  else
    match TopKUnionMerger.merge fail src b limit.toNat with
    | .error e => .error e
    | .ok sws =>
      match TopKUnionMerger.mergeTxn fail src b limit.toNat with
      | .error e => .error e
      | .ok tws => .ok (sws, tws)

/-- Modelled from the spec: one invocation of the ActivityJob pipeline for a
bucket (section 4.4): read the configuration snapshot, run TopKUnionMerger
then Materializer sequentially, and atomically replace the bucket's rows in
the ActivityStore. Any failure before the atomic write aborts the entire
run and no store is produced (section 7, fail-fast). -/
def run (fail : Metric → Bool) (src : StatsSource) (cfg : Config) (b : Nat)
    (store : ActivityStore) : Except JobError ActivityStore :=
  match computeWorkingSets fail src b cfg.topKLimit with
  | .error e => .error e
  | .ok (sws, tws) =>
      .ok (ActivityStore.replaceBucket store b
        (Materializer.stmtRows src b sws)
        (Materializer.txnRows src b sws tws))

/-- Modelled from the spec: the ActivityStore state visible after a run
(section 4.4) - the new snapshot on success, the previous snapshot
completely untouched on failure. -/
def storeAfter (fail : Metric → Bool) (src : StatsSource) (cfg : Config)
    (b : Nat) (store : ActivityStore) : ActivityStore :=
  match run fail src cfg b store with
  | .error _ => store
  | .ok s => s

end ActivityJob

/-- Modelled from the spec: the explicit stats-reset operation (section 3:
ActivityRecords are "deleted entirely on an explicit stats-reset operation";
the exercising test resets via `crdb_internal.reset_sql_stats()`): it clears
the raw statistics store and every activity row. -/
def resetSqlStats (_src : StatsSource) (_store : ActivityStore) :
    StatsSource × ActivityStore :=
  ({ stmts := [], txns := [] }, ActivityStore.empty)

/-- Modelled from the spec: the filter of the activity read path
(section 4.5) - a time range and an app name. -/
structure ReadFilter where
  appName : String
  startBucket : Nat
  endBucket : Nat
deriving DecidableEq, Repr

/-- Modelled from the spec: one row of the read-path response (sections 4.5
and 6) - fingerprint, app and the ranking-relevant counters, plus the
`stmtFingerprintIDs` metadata array of the wire format. Both the enabled and
the disabled path produce this same shape. -/
structure ResponseRow where
  fingerprintID : Nat
  appName : String
  bucket : Nat
  execCount : Nat
  svcLatMean : Nat
  contentionMean : Nat
  cpuMean : Nat
  p99Lat : Nat
  stmtFingerprintIDs : List FingerprintID
deriving DecidableEq, Repr

/-- Modelled from the spec: the read-path response (section 4.5), statement
rows and transaction rows; structurally identical whichever store served
it. -/
structure ReadResponse where
  statements : List ResponseRow
  transactions : List ResponseRow
deriving DecidableEq, Repr

/-- Conversion of an activity row into a response row (enabled path). -/
def activityToRow (r : ActivityRecord) : ResponseRow :=
  { fingerprintID := r.fingerprintID
    appName := r.appName
    bucket := r.bucket
    execCount := r.execCount
    svcLatMean := r.svcLatMean
    contentionMean := r.contentionMean
    cpuMean := r.cpuMean
    p99Lat := r.p99Lat
    stmtFingerprintIDs := r.stmtFingerprintIDs }

/-- Conversion of a raw statement-statistics row into a response row
(disabled path). -/
def stmtStatToRow (r : StatisticsRecord) : ResponseRow :=
  { fingerprintID := r.fingerprintID
    appName := r.appName
    bucket := r.bucket
    execCount := r.execCount
    svcLatMean := r.svcLatMean
    contentionMean := r.contentionMean
    cpuMean := r.cpuMean
    p99Lat := r.p99Lat
    stmtFingerprintIDs := [] }

/-- Conversion of a raw transaction-statistics row into a response row
(disabled path). -/
def txnStatToRow (r : TransactionStatisticsRecord) : ResponseRow :=
  { fingerprintID := r.txnFingerprintID
    appName := r.appName
    bucket := r.bucket
    execCount := r.execCount
    svcLatMean := r.svcLatMean
    contentionMean := r.contentionMean
    cpuMean := r.cpuMean
    p99Lat := r.p99Lat
    stmtFingerprintIDs := r.stmtFingerprintIDs }

namespace ActivityReadPath

/-- Modelled from the spec: `ActivityReadPath.read(filter, enabled)`
(section 4.5). When `enabled` is true it serves from the ActivityStore
filtered by time range and app name; when false it serves an
equivalent-shape result computed by scanning StatsSource directly, with no
top-K bounding applied (full scan, filtered by time range and then by app
name). -/
def read (enabled : Bool) (src : StatsSource) (store : ActivityStore)
    (f : ReadFilter) : ReadResponse :=
  if enabled then
    { statements :=
        (store.stmtActivity.filter (fun r =>
          (decide (f.startBucket ≤ r.bucket) && decide (r.bucket ≤ f.endBucket)) &&
            (r.appName == f.appName))).map activityToRow
      transactions :=
        (store.txnActivity.filter (fun r =>
          (decide (f.startBucket ≤ r.bucket) && decide (r.bucket ≤ f.endBucket)) &&
            (r.appName == f.appName))).map activityToRow }
  else
    { statements :=
        ((src.stmts.filter (fun r =>
            decide (f.startBucket ≤ r.bucket) && decide (r.bucket ≤ f.endBucket))).filter
          (fun r => r.appName == f.appName)).map stmtStatToRow
      transactions :=
        ((src.txns.filter (fun r =>
            decide (f.startBucket ≤ r.bucket) && decide (r.bucket ≤ f.endBucket))).filter
          (fun r => r.appName == f.appName)).map txnStatToRow }

end ActivityReadPath

/-- Modelled from the spec: a direct scan of the raw statistics store for a
filter (section 8, the disabled-path scenario compares the read path with
"directly scanning StatsSource"): every raw row whose app name matches and
whose bucket lies in the time range, in source order, converted to the
response-row shape. -/
def scanStatsSource (src : StatsSource) (f : ReadFilter) : ReadResponse :=
  { statements :=
      (src.stmts.filter (fun r =>
        (r.appName == f.appName) &&
          (decide (f.startBucket ≤ r.bucket) && decide (r.bucket ≤ f.endBucket)))).map
        stmtStatToRow
    transactions :=
      (src.txns.filter (fun r =>
        (r.appName == f.appName) &&
          (decide (f.startBucket ≤ r.bucket) && decide (r.bucket ≤ f.endBucket)))).map
        txnStatToRow }

theorem length_insertBy (le : α → α → Bool) (a : α) (l : List α) :
    (insertBy le a l).length = l.length + 1 := by
  induction l with
  | nil => rfl
  | cons b bs ih =>
    simp only [insertBy]
    split <;> simp [ih]

theorem length_sortBy (le : α → α → Bool) (l : List α) :
    (sortBy le l).length = l.length := by
  induction l with
  | nil => rfl
  | cons a as ih => simp [sortBy, length_insertBy, ih]

theorem mem_insertBy (le : α → α → Bool) (a b : α) (l : List α) :
    b ∈ insertBy le a l ↔ b = a ∨ b ∈ l := by
  induction l with
  | nil => simp [insertBy]
  | cons c cs ih =>
    simp only [insertBy]
    split
    · simp only [List.mem_cons]
    · simp only [List.mem_cons, ih]
      tauto

theorem mem_sortBy (le : α → α → Bool) (a : α) (l : List α) :
    a ∈ sortBy le l ↔ a ∈ l := by
  induction l with
  | nil => simp [sortBy]
  | cons b bs ih => simp [sortBy, mem_insertBy, ih]

theorem pairwise_insertBy (le : α → α → Bool)
    (htrans : ∀ a b c, le a b = true → le b c = true → le a c = true)
    (htotal : ∀ a b, le a b = true ∨ le b a = true)
    (a : α) (l : List α) (h : l.Pairwise (fun x y => le x y = true)) :
    (insertBy le a l).Pairwise (fun x y => le x y = true) := by
  induction l with
  | nil => simp [insertBy]
  | cons b bs ih =>
    rcases List.pairwise_cons.mp h with ⟨hb, hbs⟩
    simp only [insertBy]
    split
    · rename_i hab
      refine List.pairwise_cons.mpr ⟨?_, h⟩
      intro x hx
      rcases List.mem_cons.mp hx with hx | hx
      · subst hx
        exact hab
      · exact htrans a b x hab (hb x hx)
    · rename_i hab
      refine List.pairwise_cons.mpr ⟨?_, ih hbs⟩
      intro x hx
      rcases (mem_insertBy le a x bs).mp hx with hx | hx
      · rcases htotal a b with hc | hc
        · exact absurd hc hab
        · rw [hx]
          exact hc
      · exact hb x hx

theorem pairwise_sortBy (le : α → α → Bool)
    (htrans : ∀ a b c, le a b = true → le b c = true → le a c = true)
    (htotal : ∀ a b, le a b = true ∨ le b a = true)
    (l : List α) :
    (sortBy le l).Pairwise (fun x y => le x y = true) := by
  induction l with
  | nil => simp [sortBy]
  | cons a as ih => exact pairwise_insertBy le htrans htotal a (sortBy le as) ih

theorem rankLE_iff (m : Metric) (a b : StatisticsRecord) :
    rankLE m a b = true ↔
      metricValue m b < metricValue m a ∨
        (metricValue m a = metricValue m b ∧ a.fingerprintID ≤ b.fingerprintID) := by
  simp [rankLE]

theorem rankLE_trans (m : Metric) (a b c : StatisticsRecord)
    (hab : rankLE m a b = true) (hbc : rankLE m b c = true) :
    rankLE m a c = true := by
  rw [rankLE_iff] at hab hbc ⊢
  omega

theorem rankLE_total (m : Metric) (a b : StatisticsRecord) :
    rankLE m a b = true ∨ rankLE m b a = true := by
  rw [rankLE_iff, rankLE_iff]
  omega

theorem txnRankLE_trans (m : Metric) (a b c : TransactionStatisticsRecord)
    (hab : txnRankLE m a b = true) (hbc : txnRankLE m b c = true) :
    txnRankLE m a c = true := by
  simp only [txnRankLE, Bool.or_eq_true, Bool.and_eq_true, decide_eq_true_eq,
    beq_iff_eq] at hab hbc ⊢
  omega

theorem txnRankLE_total (m : Metric) (a b : TransactionStatisticsRecord) :
    txnRankLE m a b = true ∨ txnRankLE m b a = true := by
  simp only [txnRankLE, Bool.or_eq_true, Bool.and_eq_true, decide_eq_true_eq,
    beq_iff_eq]
  omega

theorem length_dedupFids_le (l : List Nat) : (dedupFids l).length ≤ l.length := by
  induction l with
  | nil => simp [dedupFids]
  | cons a as ih =>
    simp only [dedupFids]
    split
    · exact Nat.le_succ_of_le ih
    · simpa using Nat.succ_le_succ ih

theorem mem_dedupFids (x : Nat) (l : List Nat) : x ∈ dedupFids l ↔ x ∈ l := by
  induction l with
  | nil => simp [dedupFids]
  | cons a as ih =>
    simp only [dedupFids]
    split
    · rename_i ha
      simp only [ih, List.mem_cons]
      constructor
      · exact Or.inr
      · rintro (rfl | h)
        · exact ha
        · exact h
    · simp only [List.mem_cons, ih]

theorem nodup_dedupFids (l : List Nat) : (dedupFids l).Nodup := by
  induction l with
  | nil => simp [dedupFids]
  | cons a as ih =>
    simp only [dedupFids]
    split
    · exact ih
    · rename_i ha
      exact List.nodup_cons.mpr ⟨fun hm => ha ((mem_dedupFids a as).mp hm), ih⟩

theorem MetricSelector.length_select_le (src : StatsSource) (b : Nat) (m : Metric)
    (K : Nat) : (MetricSelector.select src b m K).length ≤ K := by
  simp only [MetricSelector.select, List.length_map, List.length_take]
  exact Nat.min_le_left _ _

theorem MetricSelector.length_txnSelect_le (src : StatsSource) (b : Nat) (m : Metric)
    (K : Nat) : (MetricSelector.txnSelect src b m K).length ≤ K := by
  simp only [MetricSelector.txnSelect, List.length_map, List.length_take]
  exact Nat.min_le_left _ _

theorem length_readTopK_le (fail : Metric → Bool) (src : StatsSource) (b : Nat)
    (m : Metric) (K : Nat) (l : List Nat) (h : readTopK fail src b m K = .ok l) :
    l.length ≤ K := by
  unfold readTopK at h
  split at h
  · exact absurd h (by simp)
  · rw [Except.ok.injEq] at h
    rw [← h]
    exact MetricSelector.length_select_le src b m K

theorem length_readTxnTopK_le (fail : Metric → Bool) (src : StatsSource) (b : Nat)
    (m : Metric) (K : Nat) (l : List Nat) (h : readTxnTopK fail src b m K = .ok l) :
    l.length ≤ K := by
  unfold readTxnTopK at h
  split at h
  · exact absurd h (by simp)
  · rw [Except.ok.injEq] at h
    rw [← h]
    exact MetricSelector.length_txnSelect_le src b m K

theorem TopKUnionMerger.length_mergeMetrics_le (fail : Metric → Bool)
    (src : StatsSource) (b K : Nat) :
    ∀ ms l, TopKUnionMerger.mergeMetrics fail src b K ms = .ok l →
      l.length ≤ ms.length * K := by
  intro ms
  induction ms with
  | nil =>
    intro l h
    simp only [TopKUnionMerger.mergeMetrics, Except.ok.injEq] at h
    simp [← h]
  | cons m ms ih =>
    intro l h
    simp only [TopKUnionMerger.mergeMetrics] at h
    cases hr : readTopK fail src b m K with
    | error e =>
      rw [hr] at h
      exact absurd h (by simp)
    | ok l1 =>
      rw [hr] at h
      cases hm : TopKUnionMerger.mergeMetrics fail src b K ms with
      | error e =>
        rw [hm] at h
        exact absurd h (by simp)
      | ok rest =>
        rw [hm, Except.ok.injEq] at h
        rw [← h, List.length_append, List.length_cons]
        have h1 := length_readTopK_le fail src b m K l1 hr
        have h2 := ih rest hm
        calc l1.length + rest.length ≤ K + ms.length * K := Nat.add_le_add h1 h2
          _ = (ms.length + 1) * K := by ring

theorem TopKUnionMerger.length_mergeTxnMetrics_le (fail : Metric → Bool)
    (src : StatsSource) (b K : Nat) :
    ∀ ms l, TopKUnionMerger.mergeTxnMetrics fail src b K ms = .ok l →
      l.length ≤ ms.length * K := by
  intro ms
  induction ms with
  | nil =>
    intro l h
    simp only [TopKUnionMerger.mergeTxnMetrics, Except.ok.injEq] at h
    simp [← h]
  | cons m ms ih =>
    intro l h
    simp only [TopKUnionMerger.mergeTxnMetrics] at h
    cases hr : readTxnTopK fail src b m K with
    | error e =>
      rw [hr] at h
      exact absurd h (by simp)
    | ok l1 =>
      rw [hr] at h
      cases hm : TopKUnionMerger.mergeTxnMetrics fail src b K ms with
      | error e =>
        rw [hm] at h
        exact absurd h (by simp)
      | ok rest =>
        rw [hm, Except.ok.injEq] at h
        rw [← h, List.length_append, List.length_cons]
        have h1 := length_readTxnTopK_le fail src b m K l1 hr
        have h2 := ih rest hm
        calc l1.length + rest.length ≤ K + ms.length * K := Nat.add_le_add h1 h2
          _ = (ms.length + 1) * K := by ring

theorem TopKUnionMerger.length_merge_le (fail : Metric → Bool) (src : StatsSource)
    (b K : Nat) (ws : List Nat) (h : TopKUnionMerger.merge fail src b K = .ok ws) :
    ws.length ≤ 6 * K := by
  unfold TopKUnionMerger.merge at h
  cases hm : TopKUnionMerger.mergeMetrics fail src b K Metric.all with
  | error e =>
    rw [hm] at h
    exact absurd h (by simp [Except.map])
  | ok l =>
    rw [hm] at h
    simp only [Except.map, Except.ok.injEq] at h
    have hl := TopKUnionMerger.length_mergeMetrics_le fail src b K Metric.all l hm
    calc ws.length = (dedupFids l).length := by rw [← h]
      _ ≤ l.length := length_dedupFids_le l
      _ ≤ 6 * K := by simpa [Metric.all] using hl

theorem TopKUnionMerger.length_mergeTxn_le (fail : Metric → Bool) (src : StatsSource)
    (b K : Nat) (ws : List Nat) (h : TopKUnionMerger.mergeTxn fail src b K = .ok ws) :
    ws.length ≤ 6 * K := by
  unfold TopKUnionMerger.mergeTxn at h
  cases hm : TopKUnionMerger.mergeTxnMetrics fail src b K Metric.all with
  | error e =>
    rw [hm] at h
    exact absurd h (by simp [Except.map])
  | ok l =>
    rw [hm] at h
    simp only [Except.map, Except.ok.injEq] at h
    have hl := TopKUnionMerger.length_mergeTxnMetrics_le fail src b K Metric.all l hm
    calc ws.length = (dedupFids l).length := by rw [← h]
      _ ≤ l.length := length_dedupFids_le l
      _ ≤ 6 * K := by simpa [Metric.all] using hl

theorem Materializer.length_stmtRows_le (src : StatsSource) (b : Nat) (ws : List Nat) :
    (Materializer.stmtRows src b ws).length ≤ ws.length := by
  simp only [Materializer.stmtRows, Materializer.fetchStats, List.length_map]
  exact List.length_filterMap_le _ _

theorem Materializer.length_txnRows_le (src : StatsSource) (b : Nat)
    (sws tws : List Nat) :
    (Materializer.txnRows src b sws tws).length ≤ tws.length := by
  simp only [Materializer.txnRows, Materializer.fetchTxnStats, List.length_map]
  exact List.length_filterMap_le _ _

theorem Materializer.bucket_of_mem_stmtRows (src : StatsSource) (b : Nat)
    (ws : List Nat) (r : ActivityRecord) (h : r ∈ Materializer.stmtRows src b ws) :
    r.bucket = b := by
  simp only [Materializer.stmtRows, List.mem_map] at h
  obtain ⟨r0, hr0, rfl⟩ := h
  simp only [Materializer.fetchStats, List.mem_filterMap] at hr0
  obtain ⟨fid, _, hfind⟩ := hr0
  have hmem := List.mem_of_find?_eq_some hfind
  simp only [bucketStmts] at hmem
  have hb : (r0.bucket == b) = true := (List.mem_filter.mp hmem).2
  simp only [Materializer.stmtToActivity]
  exact beq_iff_eq.mp hb

theorem Materializer.bucket_of_mem_txnRows (src : StatsSource) (b : Nat)
    (sws tws : List Nat) (r : ActivityRecord)
    (h : r ∈ Materializer.txnRows src b sws tws) : r.bucket = b := by
  simp only [Materializer.txnRows, List.mem_map] at h
  obtain ⟨r0, hr0, rfl⟩ := h
  simp only [Materializer.fetchTxnStats, List.mem_filterMap] at hr0
  obtain ⟨fid, _, hfind⟩ := hr0
  have hmem := List.mem_of_find?_eq_some hfind
  simp only [bucketTxns] at hmem
  have hb : (r0.bucket == b) = true := (List.mem_filter.mp hmem).2
  simp only [Materializer.txnToActivity]
  exact beq_iff_eq.mp hb

theorem ActivityStore.filter_ne_bucket_eq_nil (b : Nat) (ns : List ActivityRecord)
    (hns : ∀ r ∈ ns, r.bucket = b) :
    ns.filter (fun r => r.bucket != b) = [] := by
  apply List.filter_eq_nil_iff.mpr
  intro r hr
  simp [hns r hr]

theorem ActivityStore.stmtCountInBucket_replaceBucket (store : ActivityStore)
    (b : Nat) (ns nt : List ActivityRecord) :
    ActivityStore.stmtCountInBucket (ActivityStore.replaceBucket store b ns nt) b ≤
      ns.length := by
  simp only [ActivityStore.stmtCountInBucket, ActivityStore.replaceBucket,
    List.filter_append, List.length_append]
  rw [List.filter_filter]
  have hnil :
      store.stmtActivity.filter (fun r => (r.bucket == b) && (r.bucket != b)) = [] := by
    apply List.filter_eq_nil_iff.mpr
    intro r _
    cases hr : (r.bucket == b) <;> simp [bne, hr]
  rw [hnil]
  simpa using List.length_filter_le _ ns

theorem ActivityStore.txnCountInBucket_replaceBucket (store : ActivityStore)
    (b : Nat) (ns nt : List ActivityRecord) :
    ActivityStore.txnCountInBucket (ActivityStore.replaceBucket store b ns nt) b ≤
      nt.length := by
  simp only [ActivityStore.txnCountInBucket, ActivityStore.replaceBucket,
    List.filter_append, List.length_append]
  rw [List.filter_filter]
  have hnil :
      store.txnActivity.filter (fun r => (r.bucket == b) && (r.bucket != b)) = [] := by
    apply List.filter_eq_nil_iff.mpr
    intro r _
    cases hr : (r.bucket == b) <;> simp [bne, hr]
  rw [hnil]
  simpa using List.length_filter_le _ nt

theorem ActivityStore.replaceBucket_replaceBucket (store : ActivityStore) (b : Nat)
    (ns nt : List ActivityRecord)
    (hns : ∀ r ∈ ns, r.bucket = b) (hnt : ∀ r ∈ nt, r.bucket = b) :
    ActivityStore.replaceBucket (ActivityStore.replaceBucket store b ns nt) b ns nt =
      ActivityStore.replaceBucket store b ns nt := by
  have hdup : ∀ l : List ActivityRecord,
      (l.filter (fun r => r.bucket != b)).filter (fun r => r.bucket != b) =
        l.filter (fun r => r.bucket != b) := by
    intro l
    rw [List.filter_filter]
    apply List.filter_congr
    intro r _
    cases hr : (r.bucket != b) <;> simp [hr]
  simp only [ActivityStore.replaceBucket, List.filter_append,
    ActivityStore.filter_ne_bucket_eq_nil b ns hns,
    ActivityStore.filter_ne_bucket_eq_nil b nt hnt, hdup, List.append_nil]

theorem ActivityJob.computeWorkingSets_ok_length (fail : Metric → Bool)
    (src : StatsSource) (b : Nat) (limit : Int) (sws tws : List Nat)
    (h : ActivityJob.computeWorkingSets fail src b limit = .ok (sws, tws)) :
    sws.length ≤ 6 * limit.toNat ∧ tws.length ≤ 6 * limit.toNat := by
  unfold ActivityJob.computeWorkingSets at h
  split at h
  · rw [Except.ok.injEq, Prod.mk.injEq] at h
    obtain ⟨h1, h2⟩ := h
    simp [← h1, ← h2]
  · cases hm : TopKUnionMerger.merge fail src b limit.toNat with
    | error e =>
      rw [hm] at h
      exact absurd h (by simp)
    | ok s1 =>
      rw [hm] at h
      cases ht : TopKUnionMerger.mergeTxn fail src b limit.toNat with
      | error e =>
        rw [ht] at h
        exact absurd h (by simp)
      | ok t1 =>
        rw [ht] at h
        rw [Except.ok.injEq, Prod.mk.injEq] at h
        obtain ⟨h1, h2⟩ := h
        subst h1
        subst h2
        exact ⟨TopKUnionMerger.length_merge_le fail src b limit.toNat _ hm,
          TopKUnionMerger.length_mergeTxn_le fail src b limit.toNat _ ht⟩

theorem ActivityJob.run_ok (fail : Metric → Bool) (src : StatsSource) (cfg : Config)
    (b : Nat) (store s' : ActivityStore)
    (h : ActivityJob.run fail src cfg b store = .ok s') :
    ∃ sws tws,
      ActivityJob.computeWorkingSets fail src b cfg.topKLimit = .ok (sws, tws) ∧
      sws.length ≤ 6 * cfg.topKLimit.toNat ∧
      tws.length ≤ 6 * cfg.topKLimit.toNat ∧
      s' = ActivityStore.replaceBucket store b
        (Materializer.stmtRows src b sws) (Materializer.txnRows src b sws tws) := by
  unfold ActivityJob.run at h
  cases hc : ActivityJob.computeWorkingSets fail src b cfg.topKLimit with
  | error e =>
    rw [hc] at h
    exact absurd h (by simp)
  | ok p =>
    obtain ⟨sws, tws⟩ := p
    rw [hc] at h
    rw [Except.ok.injEq] at h
    obtain ⟨h1, h2⟩ :=
      ActivityJob.computeWorkingSets_ok_length fail src b cfg.topKLimit sws tws hc
    exact ⟨sws, tws, rfl, h1, h2, h.symm⟩

/-- C1: for every bucket and every successful run of the materialization job,
the number of ActivityRecords stored for that bucket is at most K x 6, where
K is the TopKLimit read at the start of the run (clamped at zero) and 6 is
the number of fixed ranking metrics; in particular each of
`statement_activity` and `transaction_activity` holds at most K x 6 rows for
the bucket after the run. -/
theorem C1_run_bucket_bound (fail : Metric → Bool) (src : StatsSource) (cfg : Config)
    (b : Nat) (store s' : ActivityStore)
    (h : ActivityJob.run fail src cfg b store = .ok s') :
    ActivityStore.stmtCountInBucket s' b ≤ cfg.topKLimit.toNat * 6 ∧
    ActivityStore.txnCountInBucket s' b ≤ cfg.topKLimit.toNat * 6 := by
  obtain ⟨sws, tws, _, hs, ht, rfl⟩ := ActivityJob.run_ok fail src cfg b store s' h
  constructor
  · calc ActivityStore.stmtCountInBucket _ b
        ≤ (Materializer.stmtRows src b sws).length :=
          ActivityStore.stmtCountInBucket_replaceBucket store b _ _
      _ ≤ sws.length := Materializer.length_stmtRows_le src b sws
      _ ≤ 6 * cfg.topKLimit.toNat := hs
      _ = cfg.topKLimit.toNat * 6 := Nat.mul_comm _ _
  · calc ActivityStore.txnCountInBucket _ b
        ≤ (Materializer.txnRows src b sws tws).length :=
          ActivityStore.txnCountInBucket_replaceBucket store b _ _
      _ ≤ tws.length := Materializer.length_txnRows_le src b sws tws
      _ ≤ 6 * cfg.topKLimit.toNat := ht
      _ = cfg.topKLimit.toNat * 6 := Nat.mul_comm _ _

/-- Witness for C1: a concrete successful run over a two-statement,
two-transaction source with TopKLimit 3 satisfies the K x 6 bucket bound. -/
theorem C1_run_bucket_bound_witness :
    ActivityStore.stmtCountInBucket
        (ActivityJob.storeAfter (fun _ => false)
          { stmts := [⟨1, "A", 0, 5, 2, 3, 4, 7⟩, ⟨2, "B", 0, 9, 1, 0, 2, 3⟩]
            txns := [⟨10, "A", 0, 5, 2, 3, 4, 7, [1]⟩] }
          { topKLimit := 3, enabled := true } 0 ActivityStore.empty) 0 ≤
      (3 : Int).toNat * 6 ∧
    ActivityStore.txnCountInBucket
        (ActivityJob.storeAfter (fun _ => false)
          { stmts := [⟨1, "A", 0, 5, 2, 3, 4, 7⟩, ⟨2, "B", 0, 9, 1, 0, 2, 3⟩]
            txns := [⟨10, "A", 0, 5, 2, 3, 4, 7, [1]⟩] }
          { topKLimit := 3, enabled := true } 0 ActivityStore.empty) 0 ≤
      (3 : Int).toNat * 6 :=
  C1_run_bucket_bound (fun _ => false)
    { stmts := [⟨1, "A", 0, 5, 2, 3, 4, 7⟩, ⟨2, "B", 0, 9, 1, 0, 2, 3⟩]
      txns := [⟨10, "A", 0, 5, 2, 3, 4, 7, [1]⟩] }
    { topKLimit := 3, enabled := true } 0 ActivityStore.empty _ (by rfl)

/-- C2: running materialization for a bucket a second time against unchanged
underlying raw statistics yields a byte-identical ActivityStore state to the
first run - the second run succeeds and returns exactly the store the first
run produced (an idempotent overwrite of the bucket's contents, not an
append). -/
theorem C2_idempotent_rerun (fail : Metric → Bool) (src : StatsSource)
    (cfg : Config) (b : Nat) (store s1 : ActivityStore)
    (h : ActivityJob.run fail src cfg b store = .ok s1) :
    ActivityJob.run fail src cfg b s1 = .ok s1 := by
  obtain ⟨sws, tws, hc, _, _, rfl⟩ := ActivityJob.run_ok fail src cfg b store s1 h
  unfold ActivityJob.run
  rw [hc, Except.ok.injEq]
  exact ActivityStore.replaceBucket_replaceBucket store b _ _
    (fun r hr => Materializer.bucket_of_mem_stmtRows src b sws r hr)
    (fun r hr => Materializer.bucket_of_mem_txnRows src b sws tws r hr)

/-- Witness for C2: re-running the concrete run of the C1 witness reproduces
its output store exactly. -/
theorem C2_idempotent_rerun_witness :
    ActivityJob.run (fun _ => false)
        { stmts := [⟨1, "A", 0, 5, 2, 3, 4, 7⟩, ⟨2, "B", 0, 9, 1, 0, 2, 3⟩]
          txns := [⟨10, "A", 0, 5, 2, 3, 4, 7, [1]⟩] }
        { topKLimit := 3, enabled := true } 0
        (ActivityJob.storeAfter (fun _ => false)
          { stmts := [⟨1, "A", 0, 5, 2, 3, 4, 7⟩, ⟨2, "B", 0, 9, 1, 0, 2, 3⟩]
            txns := [⟨10, "A", 0, 5, 2, 3, 4, 7, [1]⟩] }
          { topKLimit := 3, enabled := true } 0 ActivityStore.empty) =
      .ok (ActivityJob.storeAfter (fun _ => false)
        { stmts := [⟨1, "A", 0, 5, 2, 3, 4, 7⟩, ⟨2, "B", 0, 9, 1, 0, 2, 3⟩]
          txns := [⟨10, "A", 0, 5, 2, 3, 4, 7, [1]⟩] }
        { topKLimit := 3, enabled := true } 0 ActivityStore.empty) :=
  C2_idempotent_rerun (fun _ => false)
    { stmts := [⟨1, "A", 0, 5, 2, 3, 4, 7⟩, ⟨2, "B", 0, 9, 1, 0, 2, 3⟩]
      txns := [⟨10, "A", 0, 5, 2, 3, 4, 7, [1]⟩] }
    { topKLimit := 3, enabled := true } 0 ActivityStore.empty _ (by rfl)

theorem Metric.mem_all (m : Metric) : m ∈ Metric.all := by
  cases m <;> simp [Metric.all]

theorem TopKUnionMerger.mergeMetrics_error (fail : Metric → Bool) (src : StatsSource)
    (b K : Nat) :
    ∀ ms : List Metric, (∃ m ∈ ms, fail m = true) →
      TopKUnionMerger.mergeMetrics fail src b K ms = .error .transientDataError := by
  intro ms
  induction ms with
  | nil =>
    rintro ⟨m, hm, _⟩
    simp at hm
  | cons m0 ms ih =>
    rintro ⟨m, hm, hf⟩
    rcases List.mem_cons.mp hm with rfl | hm
    · simp [TopKUnionMerger.mergeMetrics, readTopK, hf]
    · cases h0 : fail m0
      · have hrec := ih ⟨m, hm, hf⟩
        simp [TopKUnionMerger.mergeMetrics, readTopK, h0, hrec]
      · simp [TopKUnionMerger.mergeMetrics, readTopK, h0]

/-- C3: if a read failure occurs during a run before the atomic write - here
a simulated read failure in one MetricSelector call, with a positive
TopKLimit so that the selectors actually run - the entire run aborts with
the transient data error and the ActivityStore contents visible after the
run are exactly the previous snapshot, completely untouched. -/
theorem C3_failed_run_leaves_store (fail : Metric → Bool) (src : StatsSource)
    (cfg : Config) (b : Nat) (store : ActivityStore) (m : Metric)
    (hK : 0 < cfg.topKLimit) (hm : fail m = true) :
    ActivityJob.run fail src cfg b store = .error .transientDataError ∧
    ActivityJob.storeAfter fail src cfg b store = store := by
  have hmm : TopKUnionMerger.mergeMetrics fail src b cfg.topKLimit.toNat Metric.all =
      .error .transientDataError :=
    TopKUnionMerger.mergeMetrics_error fail src b cfg.topKLimit.toNat Metric.all
      ⟨m, Metric.mem_all m, hm⟩
  have hmerge : TopKUnionMerger.merge fail src b cfg.topKLimit.toNat =
      .error .transientDataError := by
    unfold TopKUnionMerger.merge
    rw [hmm]
    rfl
  have hcw : ActivityJob.computeWorkingSets fail src b cfg.topKLimit =
      .error .transientDataError := by
    unfold ActivityJob.computeWorkingSets
    rw [if_neg (by omega), hmerge]
  have hrun : ActivityJob.run fail src cfg b store = .error .transientDataError := by
    unfold ActivityJob.run
    rw [hcw]
  refine ⟨hrun, ?_⟩
  unfold ActivityJob.storeAfter
  rw [hrun]

/-- Witness for C3: a concrete run with a simulated read failure on the mean
service latency metric and TopKLimit 3 errors out and leaves a non-empty
previous snapshot exactly as it was. -/
theorem C3_failed_run_leaves_store_witness :
    ActivityJob.run (fun m => decide (m = Metric.svcLat))
        { stmts := [⟨1, "A", 0, 5, 2, 3, 4, 7⟩], txns := [⟨10, "A", 0, 5, 2, 3, 4, 7, [1]⟩] }
        { topKLimit := 3, enabled := true } 0
        { stmtActivity := [⟨2, "B", 0, 1, 1, 1, 1, 1, []⟩], txnActivity := [] } =
      .error .transientDataError ∧
    ActivityJob.storeAfter (fun m => decide (m = Metric.svcLat))
        { stmts := [⟨1, "A", 0, 5, 2, 3, 4, 7⟩], txns := [⟨10, "A", 0, 5, 2, 3, 4, 7, [1]⟩] }
        { topKLimit := 3, enabled := true } 0
        { stmtActivity := [⟨2, "B", 0, 1, 1, 1, 1, 1, []⟩], txnActivity := [] } =
      { stmtActivity := [⟨2, "B", 0, 1, 1, 1, 1, 1, []⟩], txnActivity := [] } :=
  C3_failed_run_leaves_store (fun m => decide (m = Metric.svcLat))
    { stmts := [⟨1, "A", 0, 5, 2, 3, 4, 7⟩], txns := [⟨10, "A", 0, 5, 2, 3, 4, 7, [1]⟩] }
    { topKLimit := 3, enabled := true } 0
    { stmtActivity := [⟨2, "B", 0, 1, 1, 1, 1, 1, []⟩], txnActivity := [] }
    Metric.svcLat (by decide) (by decide)

/-- C5: after a stats-reset operation, both the raw statistics store and the
ActivityStore are empty for all buckets - the reset deletes all activity
rows in addition to the raw statistics. -/
theorem C5_reset_clears_both_stores (src : StatsSource) (store : ActivityStore)
    (b : Nat) :
    bucketStmts (resetSqlStats src store).1 b = [] ∧
    bucketTxns (resetSqlStats src store).1 b = [] ∧
    ActivityStore.stmtCountInBucket (resetSqlStats src store).2 b = 0 ∧
    ActivityStore.txnCountInBucket (resetSqlStats src store).2 b = 0 :=
  ⟨rfl, rfl, rfl, rfl⟩

theorem ActivityJob.run_of_nonpositive_limit (fail : Metric → Bool)
    (src : StatsSource) (cfg : Config) (b : Nat) (store : ActivityStore)
    (hK : cfg.topKLimit ≤ 0) :
    ActivityJob.computeWorkingSets fail src b cfg.topKLimit = .ok ([], []) ∧
    ActivityJob.run fail src cfg b store =
      .ok (ActivityStore.replaceBucket store b [] []) := by
  have hcw : ActivityJob.computeWorkingSets fail src b cfg.topKLimit = .ok ([], []) := by
    unfold ActivityJob.computeWorkingSets
    rw [if_pos hK]
  refine ⟨hcw, ?_⟩
  unfold ActivityJob.run
  rw [hcw]
  rfl

/-- C9: if the TopKLimit read at the start of a run is not positive, the run
treats it as "select nothing for every metric": the working sets are empty
and the run does not fail - it succeeds, replacing the bucket with the
materialization of the empty working set. -/
theorem C9_nonpositive_limit_not_fatal (fail : Metric → Bool) (src : StatsSource)
    (cfg : Config) (b : Nat) (store : ActivityStore) (hK : cfg.topKLimit ≤ 0) :
    ActivityJob.computeWorkingSets fail src b cfg.topKLimit = .ok ([], []) ∧
    ActivityJob.run fail src cfg b store =
      .ok (ActivityStore.replaceBucket store b [] []) :=
  ActivityJob.run_of_nonpositive_limit fail src cfg b store hK

/-- Witness for C9: a concrete run with TopKLimit 0 over a non-empty source
succeeds with empty working sets. -/
theorem C9_nonpositive_limit_not_fatal_witness :
    ActivityJob.computeWorkingSets (fun _ => false)
        { stmts := [⟨1, "A", 0, 5, 2, 3, 4, 7⟩], txns := [] } 0
        ({ topKLimit := 0, enabled := true } : Config).topKLimit = .ok ([], []) ∧
    ActivityJob.run (fun _ => false)
        { stmts := [⟨1, "A", 0, 5, 2, 3, 4, 7⟩], txns := [] }
        { topKLimit := 0, enabled := true } 0 ActivityStore.empty =
      .ok (ActivityStore.replaceBucket ActivityStore.empty 0 [] []) :=
  C9_nonpositive_limit_not_fatal (fun _ => false)
    { stmts := [⟨1, "A", 0, 5, 2, 3, 4, 7⟩], txns := [] }
    { topKLimit := 0, enabled := true } 0 ActivityStore.empty (by decide)

/-- C10: running the job when the raw statistics tables are empty returns no
error and leaves both `statement_activity` and `transaction_activity` empty:
the job is a successful no-op on empty input, for every configuration and
bucket, as long as no read failure is injected. -/
theorem C10_empty_source_noop (fail : Metric → Bool) (cfg : Config) (b : Nat)
    (hfail : ∀ m, fail m = false) :
    ActivityJob.run fail { stmts := [], txns := [] } cfg b ActivityStore.empty =
      .ok ActivityStore.empty := by
  by_cases hK : cfg.topKLimit ≤ 0
  · obtain ⟨-, hrun⟩ := ActivityJob.run_of_nonpositive_limit fail
      { stmts := [], txns := [] } cfg b ActivityStore.empty hK
    rw [hrun]
    rfl
  · have hread : ∀ m K, readTopK fail { stmts := [], txns := [] } b m K = .ok [] := by
      intro m K
      simp [readTopK, hfail m, MetricSelector.select, MetricSelector.rankedStmts,
        bucketStmts, sortBy]
    have hreadt : ∀ m K, readTxnTopK fail { stmts := [], txns := [] } b m K = .ok [] := by
      intro m K
      simp [readTxnTopK, hfail m, MetricSelector.txnSelect, bucketTxns, sortBy]
    have hmm : ∀ K (ms : List Metric),
        TopKUnionMerger.mergeMetrics fail { stmts := [], txns := [] } b K ms = .ok [] := by
      intro K ms
      induction ms with
      | nil => rfl
      | cons m ms ih => simp [TopKUnionMerger.mergeMetrics, hread, ih]
    have hmt : ∀ K (ms : List Metric),
        TopKUnionMerger.mergeTxnMetrics fail { stmts := [], txns := [] } b K ms = .ok [] := by
      intro K ms
      induction ms with
      | nil => rfl
      | cons m ms ih => simp [TopKUnionMerger.mergeTxnMetrics, hreadt, ih]
    have hcw : ActivityJob.computeWorkingSets fail { stmts := [], txns := [] } b
        cfg.topKLimit = .ok ([], []) := by
      unfold ActivityJob.computeWorkingSets
      rw [if_neg hK]
      rw [show TopKUnionMerger.merge fail { stmts := [], txns := [] } b
          cfg.topKLimit.toNat = .ok [] by
        unfold TopKUnionMerger.merge
        rw [hmm]
        rfl]
      rw [show TopKUnionMerger.mergeTxn fail { stmts := [], txns := [] } b
          cfg.topKLimit.toNat = .ok [] by
        unfold TopKUnionMerger.mergeTxn
        rw [hmt]
        rfl]
    unfold ActivityJob.run
    rw [hcw]
    rfl

/-- Witness for C10: the concrete empty-source run with TopKLimit 3 succeeds
and returns the empty store. -/
theorem C10_empty_source_noop_witness :
    ActivityJob.run (fun _ => false) { stmts := [], txns := [] }
        { topKLimit := 3, enabled := true } 0 ActivityStore.empty =
      .ok ActivityStore.empty :=
  C10_empty_source_noop (fun _ => false) { topKLimit := 3, enabled := true } 0
    (fun _ => rfl)

/-- C6: when the enablement flag is false, the read path returns exactly the
result of scanning StatsSource directly for the same filter - the same row
counts and the same content - and both the enabled and disabled paths
produce values of the same response shape (`ReadResponse`), differing only
in which store served them. -/
theorem C6_disabled_read_path_matches_scan (src : StatsSource)
    (store : ActivityStore) (f : ReadFilter) :
    ActivityReadPath.read false src store f = scanStatsSource src f ∧
    (ActivityReadPath.read false src store f).statements.length =
      (scanStatsSource src f).statements.length ∧
    (ActivityReadPath.read false src store f).transactions.length =
      (scanStatsSource src f).transactions.length := by
  have hmain : ActivityReadPath.read false src store f = scanStatsSource src f := by
    unfold ActivityReadPath.read scanStatsSource
    rw [if_neg (by simp)]
    rw [List.filter_filter, List.filter_filter]
  exact ⟨hmain, by rw [hmain], by rw [hmain]⟩

/-- C7: the merge phase of a failure-free run invokes MetricSelector once
per metric over exactly the six fixed metrics - execution count, mean
service latency, derived total execution time (which is count x mean
latency, ranked by its own independent selector call), mean contention
time, mean CPU time and p99 latency - and unions the six result lists,
deduplicating by fingerprintID, into one duplicate-free working set. -/
theorem C7_merge_unions_six_fixed_metrics (fail : Metric → Bool)
    (src : StatsSource) (b K : Nat) (hfail : ∀ m, fail m = false) :
    Metric.all.length = 6 ∧
    TopKUnionMerger.merge fail src b K =
      .ok (dedupFids
        (MetricSelector.select src b .execCnt K ++
          (MetricSelector.select src b .svcLat K ++
            (MetricSelector.select src b .totalExecTime K ++
              (MetricSelector.select src b .contention K ++
                (MetricSelector.select src b .cpu K ++
                  MetricSelector.select src b .p99 K)))))) ∧
    (∀ r : StatisticsRecord,
      metricValue .totalExecTime r = r.execCount * r.svcLatMean) ∧
    (∀ ws, TopKUnionMerger.merge fail src b K = .ok ws → ws.Nodup) := by
  have hmerge : TopKUnionMerger.merge fail src b K =
      .ok (dedupFids
        (MetricSelector.select src b .execCnt K ++
          (MetricSelector.select src b .svcLat K ++
            (MetricSelector.select src b .totalExecTime K ++
              (MetricSelector.select src b .contention K ++
                (MetricSelector.select src b .cpu K ++
                  MetricSelector.select src b .p99 K)))))) := by
    simp [TopKUnionMerger.merge, TopKUnionMerger.mergeMetrics, Metric.all,
      readTopK, hfail, Except.map]
  refine ⟨rfl, hmerge, fun r => rfl, ?_⟩
  intro ws hws
  rw [hmerge, Except.ok.injEq] at hws
  rw [← hws]
  exact nodup_dedupFids _

/-- Witness for C7: the six-metric union equation instantiated at a concrete
one-row source with K = 3 and no injected failures. -/
theorem C7_merge_unions_six_fixed_metrics_witness :
    Metric.all.length = 6 ∧
    TopKUnionMerger.merge (fun _ => false)
        { stmts := [⟨1, "A", 0, 5, 2, 3, 4, 7⟩], txns := [] } 0 3 =
      .ok (dedupFids
        (MetricSelector.select { stmts := [⟨1, "A", 0, 5, 2, 3, 4, 7⟩], txns := [] } 0
            .execCnt 3 ++
          (MetricSelector.select { stmts := [⟨1, "A", 0, 5, 2, 3, 4, 7⟩], txns := [] } 0
              .svcLat 3 ++
            (MetricSelector.select { stmts := [⟨1, "A", 0, 5, 2, 3, 4, 7⟩], txns := [] } 0
                .totalExecTime 3 ++
              (MetricSelector.select { stmts := [⟨1, "A", 0, 5, 2, 3, 4, 7⟩], txns := [] } 0
                  .contention 3 ++
                (MetricSelector.select { stmts := [⟨1, "A", 0, 5, 2, 3, 4, 7⟩], txns := [] } 0
                    .cpu 3 ++
                  MetricSelector.select { stmts := [⟨1, "A", 0, 5, 2, 3, 4, 7⟩], txns := [] } 0
                    .p99 3)))))) ∧
    (∀ r : StatisticsRecord,
      metricValue .totalExecTime r = r.execCount * r.svcLatMean) ∧
    (∀ ws, TopKUnionMerger.merge (fun _ => false)
        { stmts := [⟨1, "A", 0, 5, 2, 3, 4, 7⟩], txns := [] } 0 3 = .ok ws →
      ws.Nodup) :=
  C7_merge_unions_six_fixed_metrics (fun _ => false)
    { stmts := [⟨1, "A", 0, 5, 2, 3, 4, 7⟩], txns := [] } 0 3 (fun _ => rfl)

/-- C8: for every bucket, metric and K, `MetricSelector.select` returns the
fingerprint IDs of the bucket's rows in ranking order - metric value
descending, ties broken by fingerprintID ascending - truncated to the top
K; and if fewer than K rows exist in the bucket it returns all of them. -/
theorem C8_selector_contract (src : StatsSource) (b : Nat) (m : Metric) (K : Nat) :
    MetricSelector.select src b m K =
      ((MetricSelector.rankedStmts src b m).take K).map (fun r => r.fingerprintID) ∧
    ((MetricSelector.rankedStmts src b m).take K).Pairwise (fun a c =>
      metricValue m c < metricValue m a ∨
        (metricValue m a = metricValue m c ∧ a.fingerprintID ≤ c.fingerprintID)) ∧
    ((bucketStmts src b).length ≤ K →
      (MetricSelector.select src b m K).length = (bucketStmts src b).length ∧
      ∀ r ∈ bucketStmts src b, r.fingerprintID ∈ MetricSelector.select src b m K) := by
  refine ⟨rfl, ?_, ?_⟩
  · have hp := pairwise_sortBy (rankLE m) (rankLE_trans m) (rankLE_total m)
      (bucketStmts src b)
    have hp2 : ((MetricSelector.rankedStmts src b m).take K).Pairwise
        (fun a c => rankLE m a c = true) := by
      exact hp.sublist (List.take_sublist K _)
    exact hp2.imp (fun h => (rankLE_iff m _ _).mp h)
  · intro hlen
    have hlen2 : (MetricSelector.rankedStmts src b m).length =
        (bucketStmts src b).length := length_sortBy (rankLE m) (bucketStmts src b)
    have htake : (MetricSelector.rankedStmts src b m).take K =
        MetricSelector.rankedStmts src b m := by
      apply List.take_of_length_le
      omega
    constructor
    · simp [MetricSelector.select, htake, hlen2]
    · intro r hr
      have hr2 : r ∈ MetricSelector.rankedStmts src b m :=
        (mem_sortBy (rankLE m) r (bucketStmts src b)).mpr hr
      simp only [MetricSelector.select, htake]
      exact List.mem_map_of_mem (fun r => r.fingerprintID) hr2

/-- Witness for C8: the selector contract instantiated at a concrete
two-row bucket with K = 3 (fewer rows than K), with the fewer-than-K clause
discharged. -/
theorem C8_selector_contract_witness :
    (MetricSelector.select
        { stmts := [⟨1, "A", 0, 5, 2, 3, 4, 7⟩, ⟨2, "B", 0, 9, 1, 0, 2, 3⟩],
          txns := [] } 0 .execCnt 3).length =
      (bucketStmts
        { stmts := [⟨1, "A", 0, 5, 2, 3, 4, 7⟩, ⟨2, "B", 0, 9, 1, 0, 2, 3⟩],
          txns := [] } 0).length ∧
    ∀ r ∈ bucketStmts
        { stmts := [⟨1, "A", 0, 5, 2, 3, 4, 7⟩, ⟨2, "B", 0, 9, 1, 0, 2, 3⟩],
          txns := [] } 0,
      r.fingerprintID ∈ MetricSelector.select
        { stmts := [⟨1, "A", 0, 5, 2, 3, 4, 7⟩, ⟨2, "B", 0, 9, 1, 0, 2, 3⟩],
          txns := [] } 0 .execCnt 3 :=
  (C8_selector_contract
    { stmts := [⟨1, "A", 0, 5, 2, 3, 4, 7⟩, ⟨2, "B", 0, 9, 1, 0, 2, 3⟩], txns := [] }
    0 .execCnt 3).2.2 (by decide)

/-- C4: for a single statement executed under one app with no prior data -
one statement-statistics row and one transaction-statistics row referencing
exactly that statement - a failure-free run with a positive TopKLimit
produces exactly 1 row in `statement_activity` for that app and exactly 1
row in `transaction_activity` for that app, and the transaction row's
Metadata `stmtFingerprintIDs` contains exactly 1 entry. -/
theorem C4_single_statement_scenario (fail : Metric → Bool) (cfg : Config)
    (b : Nat) (sr : StatisticsRecord) (tr : TransactionStatisticsRecord)
    (s' : ActivityStore)
    (hfail : ∀ m, fail m = false)
    (hK : 0 < cfg.topKLimit)
    (hsb : sr.bucket = b) (htb : tr.bucket = b)
    (happ : tr.appName = sr.appName)
    (hids : tr.stmtFingerprintIDs = [sr.fingerprintID])
    (h : ActivityJob.run fail { stmts := [sr], txns := [tr] } cfg b
        ActivityStore.empty = .ok s') :
    (s'.stmtActivity.filter (fun r => r.appName == sr.appName)).length = 1 ∧
    (s'.txnActivity.filter (fun r => r.appName == sr.appName)).length = 1 ∧
    ∀ r ∈ s'.txnActivity, r.stmtFingerprintIDs.length = 1 := by
  obtain ⟨k, hk⟩ : ∃ k, cfg.topKLimit.toNat = k + 1 :=
    ⟨cfg.topKLimit.toNat - 1, by omega⟩
  set src : StatsSource := { stmts := [sr], txns := [tr] } with hsrc
  have hbs : bucketStmts src b = [sr] := by
    simp [bucketStmts, hsrc, hsb]
  have hbt : bucketTxns src b = [tr] := by
    simp [bucketTxns, hsrc, htb]
  have hsel : ∀ m, MetricSelector.select src b m (k + 1) = [sr.fingerprintID] := by
    intro m
    simp [MetricSelector.select, MetricSelector.rankedStmts, hbs, sortBy, insertBy]
  have hselt : ∀ m, MetricSelector.txnSelect src b m (k + 1) =
      [tr.txnFingerprintID] := by
    intro m
    simp [MetricSelector.txnSelect, hbt, sortBy, insertBy]
  have hmerge : TopKUnionMerger.merge fail src b (k + 1) =
      .ok [sr.fingerprintID] := by
    simp [TopKUnionMerger.merge, TopKUnionMerger.mergeMetrics, Metric.all,
      readTopK, hfail, hsel, Except.map, dedupFids]
  have hmerget : TopKUnionMerger.mergeTxn fail src b (k + 1) =
      .ok [tr.txnFingerprintID] := by
    simp [TopKUnionMerger.mergeTxn, TopKUnionMerger.mergeTxnMetrics, Metric.all,
      readTxnTopK, hfail, hselt, Except.map, dedupFids]
  have hcw : ActivityJob.computeWorkingSets fail src b cfg.topKLimit =
      .ok ([sr.fingerprintID], [tr.txnFingerprintID]) := by
    unfold ActivityJob.computeWorkingSets
    rw [if_neg (by omega), hk, hmerge, hmerget]
  have hfetch : Materializer.fetchStats src b [sr.fingerprintID] = [sr] := by
    simp [Materializer.fetchStats, hbs, List.find?]
  have hfetcht : Materializer.fetchTxnStats src b [tr.txnFingerprintID] = [tr] := by
    simp [Materializer.fetchTxnStats, hbt, List.find?]
  have hrun : ActivityJob.run fail src cfg b ActivityStore.empty =
      .ok { stmtActivity := [Materializer.stmtToActivity sr]
            txnActivity := [Materializer.txnToActivity [sr.fingerprintID] tr] } := by
    unfold ActivityJob.run
    rw [hcw]
    simp [Materializer.stmtRows, Materializer.txnRows, hfetch, hfetcht,
      ActivityStore.replaceBucket, ActivityStore.empty]
  rw [hrun, Except.ok.injEq] at h
  rw [← h]
  refine ⟨?_, ?_, ?_⟩
  · simp [Materializer.stmtToActivity]
  · simp [Materializer.txnToActivity, happ]
  · intro r hr
    simp only [List.mem_singleton] at hr
    rw [hr]
    simp [Materializer.txnToActivity, hids, dedupFids]

/-- Witness for C4: a concrete single statement under app "A" (one
statement-statistics row, one transaction-statistics row referencing it),
TopKLimit 3, no prior data: after the run each activity table has exactly
one row for app "A" and the transaction row's metadata has one entry. -/
theorem C4_single_statement_scenario_witness :
    ((ActivityJob.storeAfter (fun _ => false)
          { stmts := [⟨1, "A", 0, 5, 2, 3, 4, 7⟩]
            txns := [⟨10, "A", 0, 5, 2, 3, 4, 7, [1]⟩] }
          { topKLimit := 3, enabled := true } 0
          ActivityStore.empty).stmtActivity.filter
        (fun r => r.appName == "A")).length = 1 ∧
    ((ActivityJob.storeAfter (fun _ => false)
          { stmts := [⟨1, "A", 0, 5, 2, 3, 4, 7⟩]
            txns := [⟨10, "A", 0, 5, 2, 3, 4, 7, [1]⟩] }
          { topKLimit := 3, enabled := true } 0
          ActivityStore.empty).txnActivity.filter
        (fun r => r.appName == "A")).length = 1 ∧
    ∀ r ∈ (ActivityJob.storeAfter (fun _ => false)
        { stmts := [⟨1, "A", 0, 5, 2, 3, 4, 7⟩]
          txns := [⟨10, "A", 0, 5, 2, 3, 4, 7, [1]⟩] }
        { topKLimit := 3, enabled := true } 0
        ActivityStore.empty).txnActivity,
      r.stmtFingerprintIDs.length = 1 :=
  C4_single_statement_scenario (fun _ => false)
    { topKLimit := 3, enabled := true } 0
    ⟨1, "A", 0, 5, 2, 3, 4, 7⟩ ⟨10, "A", 0, 5, 2, 3, 4, 7, [1]⟩ _
    (fun _ => rfl) (by decide) rfl rfl rfl rfl (by rfl)
